import Mathlib

/-!
Shallow embedding of the async inference orchestration core of `app.py`:
job submission (`generate_image` request-id extraction), the status poll
loop (`poll_until_complete`), result extraction
(`extract_image_bytes_from_result` with its nested `find_first_url`),
and the route-level error translation of `generate_image`.

JSON payloads are modelled by the inductive `JVal`; Python truthiness and
`dict.get` (which returns `None` for a missing key) are modelled by
`truthy` and `getD`; Python's `a or b` is `pyOr`.  Time in the poll loop
is modelled in whole seconds with instantaneous HTTP calls: each
`time.sleep(poll_interval)` advances the clock by `interval`, matching
the idealised timing model of the specification.  The loop is given
explicit fuel to stay total; `PollResult.fuelOut` marks fuel exhaustion
and never corresponds to a behaviour of the source.
-/

/-- JSON value, as produced by `resp.json()` in `app.py`.  Mapping fields
keep insertion order, as Python dicts do. -/
inductive JVal where
  | jnull : JVal
  | jbool (b : Bool) : JVal
  | jnum (n : Int) : JVal
  | jstr (s : String) : JVal
  | jarr (xs : List JVal) : JVal
  | jobj (fs : List (String × JVal)) : JVal

/-- Python truthiness of a JSON value (`bool(x)`): `None`, `False`, `0`,
`""`, `[]`, `{}` are falsy, everything else truthy. -/
def truthy : JVal → Bool
  | .jnull => false
  | .jbool b => b
  | .jnum n => n != 0
  | .jstr s => !s.isEmpty
  | .jarr xs => !xs.isEmpty
  | .jobj fs => !fs.isEmpty

/-- Field lookup in an object's field list, `None` (= `jnull`) when absent. -/
def lookupD : List (String × JVal) → String → JVal
  | [], _ => .jnull
  | (k', v) :: rest, k => if k = k' then v else lookupD rest k

/-- `d.get(k)` on a JSON mapping: the stored value, or `None` for a missing
key (and on a non-mapping, which the source never queries). -/
def getD (j : JVal) (k : String) : JVal :=
  match j with
  | .jobj fs => lookupD fs k
  | _ => .jnull

/-- Python `a or b`: `a` when truthy, else `b`. -/
def pyOr (a b : JVal) : JVal :=
  if truthy a then a else b

/-- `str.upper()`, character by character.  The statuses the source
compares against are ASCII, where `Char.toUpper` agrees with Python. -/
def upperStr (s : String) : String := ⟨s.data.map Char.toUpper⟩

/-- `s.startswith("http")` (line 164). -/
def startsWithHttp (s : String) : Bool :=
  match s.data with
  | 'h' :: 't' :: 't' :: 'p' :: _ => true
  | _ => false

/-- Terminal classification of a normalized status string, from the two
membership tests of `poll_until_complete` (line 117 and line 120). -/
inductive StatusClass where
  | success : StatusClass
  | failure : StatusClass
  | nonTerminal : StatusClass
deriving DecidableEq, Repr

/-- `status_val in ("COMPLETE", "SUCCEEDED", "SUCCESS")` /
`status_val in ("FAILED", "ERROR")`, checked in that order. -/
def classifyUpper (u : String) : StatusClass :=
  if ["COMPLETE", "SUCCEEDED", "SUCCESS"].contains u then .success
  else if ["FAILED", "ERROR"].contains u then .failure
  else .nonTerminal

/-- `(status_json.get("status") or status_json.get("state") or "").upper()`
(line 115).  `none` models the `AttributeError` Python raises when the
selected value is truthy but not a string. -/
def status_val (status_json : JVal) : Option String :=
  match pyOr (getD status_json "status")
        (pyOr (getD status_json "state") (.jstr "")) with
  | .jstr s => some (upperStr s)
  | _ => none

/-- Status classification of a raw status payload. -/
def classifyPayload (status_json : JVal) : Option StatusClass :=
  (status_val status_json).map classifyUpper

def DO_INFERENCE_BASE : String := "https://inference.do-ai.run/v1/async-invoke"

/-- URL used by `get_job_status` (line 100). -/
def status_url (request_id : String) : String :=
  DO_INFERENCE_BASE ++ "/" ++ request_id ++ "/status"

/-- URL used by `get_job_result` (line 106). -/
def result_url (request_id : String) : String :=
  DO_INFERENCE_BASE ++ "/" ++ request_id

/-- Outcome of the poll loop.  `crashed` models an uncaught Python
exception (truthy non-string status field); `fuelOut` is only an artifact
of the fuel parameter. -/
inductive PollResult where
  | success (result : JVal) : PollResult
  | jobFailed (statusPayload : JVal) : PollResult
  | timedOut (elapsed : Nat) : PollResult
  | crashed : PollResult
  | fuelOut : PollResult

/-- `poll_until_complete` (lines 110-124).  `fetch m u` is the JSON body of
the HTTP GET issued to URL `u` during iteration `m`; `n` is the current
iteration index and `t` the elapsed whole seconds since `start`.  Each
iteration fetches the status, tests success, then failure, then
`time.time() - start > timeout_seconds`, and otherwise sleeps `interval`
seconds and repeats. -/
def poll_until_complete (fetch : Nat → String → JVal) (request_id : String)
    (timeout_seconds interval : Nat) : Nat → Nat → Nat → PollResult
  | 0, _, _ => .fuelOut
  | fuel + 1, n, t =>
    let status_json := fetch n (status_url request_id)
    match classifyPayload status_json with
    | none => .crashed
    | some .success => .success (fetch n (result_url request_id))
    | some .failure => .jobFailed status_json
    | some .nonTerminal =>
      if t > timeout_seconds then .timedOut t
      else poll_until_complete fetch request_id timeout_seconds interval fuel (n + 1) (t + interval)

/-- Base64 value of a single alphabet character, `none` outside the
standard alphabet. -/
def b64charVal (c : Char) : Option Nat :=
  if 'A' ≤ c ∧ c ≤ 'Z' then some (c.toNat - 65)
  else if 'a' ≤ c ∧ c ≤ 'z' then some (c.toNat - 71)
  else if '0' ≤ c ∧ c ≤ '9' then some (c.toNat + 4)
  else if c = '+' then some 62
  else if c = '/' then some 63
  else none

/-- Decode one 4-character base64 group, honouring `=` padding. -/
def b64group (a b c d : Char) : Option (List Nat) :=
  match b64charVal a, b64charVal b with
  | some va, some vb =>
    if c = '=' then
      if d = '=' then some [va * 4 + vb / 16] else none
    else
      match b64charVal c with
      | some vc =>
        if d = '=' then some [va * 4 + vb / 16, (vb % 16) * 16 + vc / 4]
        else
          match b64charVal d with
          | some vd => some [va * 4 + vb / 16, (vb % 16) * 16 + vc / 4, (vc % 4) * 64 + vd]
          | none => none
      | none => none
  | _, _ => none

/-- Standard base64 decoding over a character list: groups of four,
padding allowed only in the final group.  `none` models the
`binascii.Error` raised by `base64.b64decode` on malformed input. -/
def b64decodeChars : List Char → Option (List Nat)
  | [] => some []
  | a :: b :: c :: d :: rest =>
    match b64group a b c d, b64decodeChars rest with
    | some bs, some rs =>
      if rest ≠ [] ∧ bs.length < 3 then none else some (bs ++ rs)
    | _, _ => none
  | _ => none

/-- `base64.b64decode` on a string (line 155/159), returning decoded byte
values, or `none` for input the Python decoder rejects. -/
def b64decode (s : String) : Option (List Nat) :=
  b64decodeChars s.data

/-- `isinstance(v, str) and v.startswith("http")` (line 164): the string
when the value is a string starting with `http`, else `none`. -/
def asHttpString : JVal → Option String
  | .jstr s => if startsWithHttp s then some s else none
  | _ => none

/-- `find_first_url` (lines 161-174): a mapping is scanned field by field
in insertion order — a string value is returned when it starts with
`http`, otherwise the search recurses into the value; a sequence is
scanned element by element, recursing into each element.  A recursive
call on anything that is neither a mapping nor a sequence returns `none`,
so a string sitting directly inside a sequence (or at the root) is never
tested against `http`. -/
def find_first_url : JVal → Option String
  | .jobj [] => none
  | .jobj ((_, v) :: rest) =>
    match asHttpString v with
    | some s => some s
    | none =>
      match find_first_url v with
      | some u => some u
      | none => find_first_url (.jobj rest)
  | .jarr [] => none
  | .jarr (el :: rest) =>
    match find_first_url el with
    | some u => some u
    | none => find_first_url (.jarr rest)
  | _ => none
termination_by j => sizeOf j
decreasing_by all_goals simp_wf <;> omega

/-- The strings that `find_first_url` can test positively, in traversal
order: exactly the mapping values that are strings starting with `http`,
collected depth-first. -/
def url_candidates : JVal → List String
  | .jobj [] => []
  | .jobj ((_, v) :: rest) =>
    (match asHttpString v with
     | some s => [s]
     | none => url_candidates v) ++ url_candidates (.jobj rest)
  | .jarr [] => []
  | .jarr (el :: rest) => url_candidates el ++ url_candidates (.jarr rest)
  | _ => []
termination_by j => sizeOf j
decreasing_by all_goals simp_wf <;> omega

/-- Every string in the tree that starts with `http`, wherever it occurs:
as a mapping value, a sequence element, or the root. -/
def all_http_strings : JVal → List String
  | .jstr s => if startsWithHttp s then [s] else []
  | .jobj [] => []
  | .jobj ((_, v) :: rest) => all_http_strings v ++ all_http_strings (.jobj rest)
  | .jarr [] => []
  | .jarr (el :: rest) => all_http_strings el ++ all_http_strings (.jarr rest)
  | _ => []
termination_by j => sizeOf j
decreasing_by all_goals simp_wf <;> omega

/-- `result_json.get("output") or result_json.get("outputs") or
result_json.get("results")` (line 143). -/
def output_chain (result_json : JVal) : JVal :=
  pyOr (getD result_json "output")
    (pyOr (getD result_json "outputs") (getD result_json "results"))

/-- Outcome of `extract_image_bytes_from_result`: image bytes with a
content type, the `(None, None)` no-image outcome, or an uncaught Python
exception (a truthy non-string URL/base64 value, or a malformed base64
string). -/
inductive Extracted where
  | found (bytes : List Nat) (contentType : String) : Extracted
  | notFound : Extracted
  | crashed : Extracted

/-- A successful `requests.get(url)` for an image asset: `g u` yields the
body bytes and the optional `Content-Type` header; the content type
defaults to `image/png` when the header is absent (lines 140, 151, 180). -/
def fetch_as_image (g : String → List Nat × Option String) (u : String) : Extracted :=
  .found (g u).1 ((g u).2.getD "image/png")

/-- `base64.b64decode(v)` wrapped for use on a JSON value: decodes a string
value, crashes (exception) on a non-string or on undecodable input. -/
def decode_b64_image (v : JVal) : Extracted :=
  match v with
  | .jstr s =>
    match b64decode s with
    | some bs => .found bs "image/png"
    | none => .crashed
  | _ => .crashed

/-- `extract_image_bytes_from_result` (lines 127-182): top-level `url`
first; then the first element of the `output`/`outputs`/`results` array,
trying its `url`, then `base64`/`b64`, then `image` keys; then the
recursive `find_first_url` scan; else `(None, None)`. -/
def extract_image_bytes_from_result (g : String → List Nat × Option String)
    (result_json : JVal) : Extracted :=
  let url := getD result_json "url"
  if truthy url then
    match url with
    | .jstr s => fetch_as_image g s
    | _ => .crashed
  else
    let step3 : Extracted :=
      match find_first_url result_json with
      | some u => fetch_as_image g u
      | none => .notFound
    match output_chain result_json with
    | .jarr (item :: _) =>
      match item with
      | .jobj _ =>
        if truthy (getD item "url") then
          match getD item "url" with
          | .jstr s => fetch_as_image g s
          | _ => .crashed
        else if truthy (getD item "base64") || truthy (getD item "b64") then
          decode_b64_image (pyOr (getD item "base64") (getD item "b64"))
        else if truthy (getD item "image")
                && (match getD item "image" with | .jstr _ => true | _ => false) then
          decode_b64_image (getD item "image")
        else step3
      | _ => step3
    | _ => step3

/-- Request-id extraction of `generate_image` (line 213):
`start_resp.get("request_id") or start_resp.get("id") or
start_resp.get("requestId")`, then the `if not request_id` guard
(line 214): `some` of the first truthy value, else `none`. -/
def extract_request_id (start_resp : JVal) : Option JVal :=
  let request_id := pyOr (getD start_resp "request_id")
    (pyOr (getD start_resp "id") (getD start_resp "requestId"))
  if truthy request_id then some request_id else none

/-- The error taxonomy as it reaches the route boundaries, each member
carrying its diagnostic payload.  The routes dispatch on the Python
exception class, so the `TransportError` member is split by the class it
travels under: `httpTransportError` is a `requests.HTTPError` raised by
`raise_for_status`, while `otherTransportError` is any other transport
failure from `requests` (e.g. `ConnectionError`), which no dedicated
handler catches. -/
inductive AppError where
  | malformedResponse (raw : JVal) : AppError
  | jobFailed (statusPayload : JVal) : AppError
  | pollTimeout (timeoutSeconds : Nat) : AppError
  | httpTransportError (detail : String) : AppError
  | otherTransportError (detail : String) : AppError
  | noImageFound (result : JVal) : AppError

/-- The taxonomy member an `AppError` belongs to, payload forgotten.
Both transport forms belong to the single `TransportError` member of the
specification's taxonomy. -/
def AppError.kind : AppError → Nat
  | .malformedResponse _ => 0
  | .jobFailed _ => 1
  | .pollTimeout _ => 2
  | .httpTransportError _ => 3
  | .otherTransportError _ => 3
  | .noImageFound _ => 4

/-- Submission phase of `generate_image` (lines 213-216): a handle id, or
`MalformedResponseError` carrying the raw response. -/
def submit_request_id (start_resp : JVal) : Except AppError JVal :=
  match extract_request_id start_resp with
  | some v => .ok v
  | none => .error (.malformedResponse start_resp)

/-- HTTP status code and `error` message produced for each taxonomy member
by the `generate_image` route (lines 216, 223-224, 228-236): the
`TimeoutError` handler returns 504, the `requests.HTTPError` handler 502,
the missing-id and no-image checks their own 500 messages, and everything
else — `JobFailedError` (a `RuntimeError`) as well as any transport
failure that is not an `HTTPError` — lands in the generic `Exception`
handler's 500. -/
def generate_error_response : AppError → Nat × String
  | .malformedResponse _ => (500, "Unexpected async-invoke response")
  | .jobFailed _ => (500, "Failed to generate image")
  | .pollTimeout _ => (504, "Inference job timed out")
  | .httpTransportError _ => (502, "HTTP error during inference")
  | .otherTransportError _ => (500, "Failed to generate image")
  | .noImageFound _ => (500, "No image found in inference result")

/-- HTTP status code and `error` message produced for each taxonomy member
by the `upload_image_to_spaces` route (lines 261, 268, 286-291).  That
route has no `requests.HTTPError` handler: only `TimeoutError` gets its
own 504, and every other exception — `JobFailedError` and both transport
forms alike — falls into the generic `Exception` handler's 500. -/
def upload_error_response : AppError → Nat × String
  | .malformedResponse _ => (500, "Unexpected async-invoke response")
  | .jobFailed _ => (500, "Failed to generate or upload image")
  | .pollTimeout _ => (504, "Inference job timed out")
  | .httpTransportError _ => (500, "Failed to generate or upload image")
  | .otherTransportError _ => (500, "Failed to generate or upload image")
  | .noImageFound _ => (500, "No image found in inference result")

/-- The `if not img_bytes` check of `generate_image` (lines 222-224):
an extraction that yields no bytes (or empty bytes, which are falsy)
becomes `NoImageFoundError` carrying the full result.  A crashed
extraction never reaches this check (its exception propagates), which the
model records as `none`. -/
def generate_handle_extract (e : Extracted) (final_result : JVal) :
    Option (Except AppError (List Nat × String)) :=
  match e with
  | .found bs ct =>
    some (if bs.isEmpty then .error (.noImageFound final_result) else .ok (bs, ct))
  | .notFound => some (.error (.noImageFound final_result))
  | .crashed => none

theorem head?_append_or {α : Type} (l₁ l₂ : List α) :
    (l₁ ++ l₂).head? = (l₁.head?).or l₂.head? := by
  cases l₁ <;> simp

theorem find_first_url_eq_head (j : JVal) :
    find_first_url j = (url_candidates j).head? := by
  induction j using find_first_url.induct with
  | case1 => simp [find_first_url, url_candidates]
  | case2 k v rest s hs =>
    simp [find_first_url, url_candidates, hs]
  | case3 k v rest hs u hx ih =>
    rw [ih] at hx
    simp [find_first_url, url_candidates, hs, ih, head?_append_or, hx]
  | case4 k v rest hs hx ih ihrest =>
    rw [ih] at hx
    simp [find_first_url, url_candidates, hs, ih, head?_append_or, hx, ihrest]
  | case6 el rest u hx ih =>
    rw [ih] at hx
    simp [find_first_url, url_candidates, ih, head?_append_or, hx]
  | case7 el rest hx ih ihrest =>
    rw [ih] at hx
    simp [find_first_url, url_candidates, ih, head?_append_or, hx, ihrest]
  | case5 => simp [find_first_url, url_candidates]
  | case8 j h1 h2 h3 h4 =>
    match j with
    | .jnull => simp [find_first_url, url_candidates]
    | .jbool b => simp [find_first_url, url_candidates]
    | .jnum n => simp [find_first_url, url_candidates]
    | .jstr s => simp [find_first_url, url_candidates]
    | .jarr [] => exact absurd rfl h3
    | .jarr (el :: rest) => exact absurd rfl (h4 el rest)
    | .jobj [] => exact absurd rfl h1
    | .jobj ((k, v) :: rest) => exact absurd rfl (h2 k v rest)

theorem url_candidates_nil_of_no_http (j : JVal) (h : all_http_strings j = []) :
    url_candidates j = [] := by
  induction j using url_candidates.induct with
  | case1 => simp [url_candidates]
  | case2 k v rest ihv ihrest =>
    simp only [all_http_strings, List.append_eq_nil] at h
    cases hs : asHttpString v with
    | some s =>
      exfalso
      cases v <;> simp [asHttpString] at hs
      rename_i s'
      obtain ⟨hw, rfl⟩ := hs
      simp [all_http_strings, hw] at h
    | none =>
      simp [url_candidates, hs, ihv h.1, ihrest h.2]
  | case3 => simp [url_candidates]
  | case4 el rest ihel ihrest =>
    simp only [all_http_strings, List.append_eq_nil] at h
    simp [url_candidates, ihel h.1, ihrest h.2]
  | case5 j h1 h2 h3 h4 =>
    match j with
    | .jnull => simp [url_candidates]
    | .jbool b => simp [url_candidates]
    | .jnum n => simp [url_candidates]
    | .jstr s => simp [url_candidates]
    | .jarr [] => exact absurd rfl h3
    | .jarr (el :: rest) => exact absurd rfl (h4 el rest)
    | .jobj [] => exact absurd rfl h1
    | .jobj ((k, v) :: rest) => exact absurd rfl (h2 k v rest)

/-- Whether strategy 2 of `extract_image_bytes_from_result` (lines
143-159) produces an outcome: the `output`/`outputs`/`results` chain is a
non-empty list whose first element is a mapping with a truthy `url`, a
truthy `base64` or `b64`, or a truthy string `image` value. -/
def strategy2_hit (result_json : JVal) : Bool :=
  match output_chain result_json with
  | .jarr (item :: _) =>
    match item with
    | .jobj _ =>
      truthy (getD item "url") || truthy (getD item "base64") || truthy (getD item "b64")
        || (truthy (getD item "image")
            && (match getD item "image" with | .jstr _ => true | _ => false))
    | _ => false
  | _ => false

theorem extract_step3_of_miss (g : String → List Nat × Option String) (r : JVal)
    (h1 : truthy (getD r "url") = false) (h2 : strategy2_hit r = false) :
    extract_image_bytes_from_result g r =
      (match find_first_url r with
       | some u => fetch_as_image g u
       | none => .notFound) := by
  unfold extract_image_bytes_from_result
  simp only [h1, Bool.false_eq_true, if_false]
  cases ho : output_chain r with
  | jnull => simp [ho]
  | jbool b => simp [ho]
  | jnum n => simp [ho]
  | jstr s => simp [ho]
  | jobj fs => simp [ho]
  | jarr xs =>
    cases xs with
    | nil => simp [ho]
    | cons item rest =>
      simp only [strategy2_hit, ho] at h2
      cases item with
      | jobj ifs =>
        simp only [Bool.or_eq_false_iff] at h2
        simp [ho, h2.1.1.1, h2.1.1.2, h2.1.2, h2.2]
      | jnull => simp [ho]
      | jbool b => simp [ho]
      | jnum n => simp [ho]
      | jstr s => simp [ho]
      | jarr ys => simp [ho]

theorem poll_step_nonterminal (fetch : Nat → String → JVal) (rid : String)
    (timeout interval fuel n t : Nat)
    (h : classifyPayload (fetch n (status_url rid)) = some .nonTerminal)
    (ht : ¬ t > timeout) :
    poll_until_complete fetch rid timeout interval (fuel + 1) n t =
      poll_until_complete fetch rid timeout interval fuel (n + 1) (t + interval) := by
  simp only [poll_until_complete, h]
  rw [if_neg ht]

theorem poll_step_timeout (fetch : Nat → String → JVal) (rid : String)
    (timeout interval fuel n t : Nat)
    (h : classifyPayload (fetch n (status_url rid)) = some .nonTerminal)
    (ht : t > timeout) :
    poll_until_complete fetch rid timeout interval (fuel + 1) n t = .timedOut t := by
  simp only [poll_until_complete, h]
  rw [if_pos ht]

theorem poll_step_success (fetch : Nat → String → JVal) (rid : String)
    (timeout interval fuel n t : Nat)
    (h : classifyPayload (fetch n (status_url rid)) = some .success) :
    poll_until_complete fetch rid timeout interval (fuel + 1) n t =
      .success (fetch n (result_url rid)) := by
  simp only [poll_until_complete, h]

theorem poll_step_failure (fetch : Nat → String → JVal) (rid : String)
    (timeout interval fuel n t : Nat)
    (h : classifyPayload (fetch n (status_url rid)) = some .failure) :
    poll_until_complete fetch rid timeout interval (fuel + 1) n t =
      .jobFailed (fetch n (status_url rid)) := by
  simp only [poll_until_complete, h]

theorem poll_success_value (fetch : Nat → String → JVal) (rid : String)
    (timeout interval : Nat) (r0 : JVal)
    (hr : ∀ m, fetch m (result_url rid) = r0) :
    ∀ fuel n t v,
      poll_until_complete fetch rid timeout interval fuel n t = .success v → v = r0 := by
  intro fuel
  induction fuel with
  | zero => intro n t v h; simp [poll_until_complete] at h
  | succ fuel ih =>
    intro n t v h
    rw [poll_until_complete] at h
    cases hc : classifyPayload (fetch n (status_url rid)) with
    | none => rw [hc] at h; simp at h
    | some cls =>
      cases cls with
      | success =>
        rw [hc] at h
        simp at h
        rw [← h, hr n]
      | failure => rw [hc] at h; simp at h
      | nonTerminal =>
        rw [hc] at h
        by_cases ht : t > timeout
        · rw [if_pos ht] at h; simp at h
        · rw [if_neg ht] at h
          exact ih (n + 1) (t + interval) v h

theorem status_url_ne_result_url (rid : String) :
    status_url rid ≠ result_url rid := by
  intro h
  have hl := congrArg String.length h
  have h7 : ("/status" : String).length = 7 := rfl
  simp only [status_url, result_url, String.length_append, h7] at hl
  omega

/-- With `timeout=5`, `interval=1` and an always-non-terminal status
endpoint, the loop times out with elapsed 6 (deadline check at 0..5
seconds fails, at 6 seconds fires, always after a status fetch). -/
theorem poll_times_out_5_1 (fetch : Nat → String → JVal) (rid : String)
    (hs : ∀ m, classifyPayload (fetch m (status_url rid)) = some .nonTerminal) :
    poll_until_complete fetch rid 5 1 7 0 0 = .timedOut 6 := by
  rw [poll_step_nonterminal fetch rid 5 1 6 0 0 (hs 0) (by omega),
      poll_step_nonterminal fetch rid 5 1 5 1 1 (hs 1) (by omega),
      poll_step_nonterminal fetch rid 5 1 4 2 2 (hs 2) (by omega),
      poll_step_nonterminal fetch rid 5 1 3 3 3 (hs 3) (by omega),
      poll_step_nonterminal fetch rid 5 1 2 4 4 (hs 4) (by omega),
      poll_step_nonterminal fetch rid 5 1 1 5 5 (hs 5) (by omega),
      poll_step_timeout fetch rid 5 1 0 6 6 (hs 6) (by omega)]

/-- C1: in `poll_until_complete` the deadline test runs only after a
status check: with `timeout=5`, `interval=1` and a never-terminal status
endpoint the loop fails by timeout at elapsed 6 seconds (within the
claimed 5..6 second window), while a job whose status check comes back
terminal-success in any iteration — even one past the deadline — still
succeeds. -/
theorem C1_timeout_checked_after_status :
    ∀ (fetch : Nat → String → JVal) (rid : String),
      ((∀ m, classifyPayload (fetch m (status_url rid)) = some .nonTerminal) →
        poll_until_complete fetch rid 5 1 7 0 0 = .timedOut 6 ∧ 5 ≤ 6 ∧ 6 ≤ 6)
      ∧ (∀ fuel n t, classifyPayload (fetch n (status_url rid)) = some .success →
          poll_until_complete fetch rid 5 1 (fuel + 1) n t =
            .success (fetch n (result_url rid))) :=
  fun fetch rid =>
    ⟨fun hs => ⟨poll_times_out_5_1 fetch rid hs, by omega, by omega⟩,
     fun fuel n t h => poll_step_success fetch rid 5 1 fuel n t h⟩

/-- Witness for C1: a constant `PENDING` endpoint times out at 6 s; a
`COMPLETE` status observed at elapsed 99 s still returns the result. -/
theorem C1_timeout_checked_after_status_witness :
    poll_until_complete (fun _ _ => JVal.jobj [("status", JVal.jstr "PENDING")])
        "job" 5 1 7 0 0 = .timedOut 6
    ∧ poll_until_complete (fun _ _ => JVal.jobj [("status", JVal.jstr "COMPLETE")])
        "job" 5 1 1 0 99 = .success (JVal.jobj [("status", JVal.jstr "COMPLETE")]) :=
  ⟨((C1_timeout_checked_after_status
      (fun _ _ => JVal.jobj [("status", JVal.jstr "PENDING")]) "job").1
      (fun _ => rfl)).1,
   (C1_timeout_checked_after_status
      (fun _ _ => JVal.jobj [("status", JVal.jstr "COMPLETE")]) "job").2 0 0 99 rfl⟩

/-- C4: normalization upper-cases the status string and classifies exactly
`COMPLETE`/`SUCCEEDED`/`SUCCESS` as terminal success, exactly
`FAILED`/`ERROR` as terminal failure, and everything else as
non-terminal. -/
theorem C4_status_normalization :
    ∀ s : String,
      classifyPayload (.jobj [("status", .jstr s)]) = some (classifyUpper (upperStr s))
      ∧ (classifyUpper (upperStr s) = .success ↔
          (upperStr s = "COMPLETE" ∨ upperStr s = "SUCCEEDED" ∨ upperStr s = "SUCCESS"))
      ∧ (classifyUpper (upperStr s) = .failure ↔
          (upperStr s = "FAILED" ∨ upperStr s = "ERROR"))
      ∧ (classifyUpper (upperStr s) = .nonTerminal ↔
          ¬(upperStr s = "COMPLETE" ∨ upperStr s = "SUCCEEDED" ∨ upperStr s = "SUCCESS"
            ∨ upperStr s = "FAILED" ∨ upperStr s = "ERROR")) := by
  intro s
  refine ⟨?_, ?_, ?_, ?_⟩
  · by_cases h : s = ""
    · subst h; rfl
    · have hne : truthy (.jstr s) = true := by
        have : s.isEmpty = false := by
          cases he : s.isEmpty
          · rfl
          · exact absurd ((String.isEmpty_iff s).mp he) h
        simp [truthy, this]
      simp [classifyPayload, status_val, getD, lookupD, pyOr, hne]
  all_goals
    generalize upperStr s = u
    simp only [classifyUpper]
    split_ifs with h1 h2 <;> simp_all <;> rcases h1 with rfl | rfl | rfl <;> simp

/-- C5: a successful poll returns the body fetched from the result
endpoint `GET <base>/<requestId>` — a distinct URL from the status
endpoint — never the status payload itself. -/
theorem C5_result_fetched_from_result_endpoint :
    ∀ (fetch : Nat → String → JVal) (rid : String)
      (timeout interval fuel n t : Nat) (v r0 : JVal),
      (poll_until_complete fetch rid timeout interval fuel n t = .success v →
        (∀ m, fetch m (result_url rid) = r0) → v = r0)
      ∧ status_url rid ≠ result_url rid :=
  fun fetch rid timeout interval fuel n t v r0 =>
    ⟨fun h hr => poll_success_value fetch rid timeout interval r0 hr fuel n t v h,
     status_url_ne_result_url rid⟩

/-- Witness for C5: with a status endpoint reporting `COMPLETE` and a
result endpoint returning a different payload, the success value is the
result endpoint's payload, and the two URLs differ. -/
theorem C5_result_fetched_from_result_endpoint_witness :
    JVal.jstr "RES" = JVal.jstr "RES" ∧ status_url "job" ≠ result_url "job" :=
  ⟨(C5_result_fetched_from_result_endpoint
      (fun _ u => if u = result_url "job" then JVal.jstr "RES"
                  else JVal.jobj [("status", JVal.jstr "COMPLETE")])
      "job" 5 1 3 0 0 (JVal.jstr "RES") (JVal.jstr "RES")).1 rfl (fun _ => rfl),
   (C5_result_fetched_from_result_endpoint
      (fun _ u => if u = result_url "job" then JVal.jstr "RES"
                  else JVal.jobj [("status", JVal.jstr "COMPLETE")])
      "job" 5 1 3 0 0 (JVal.jstr "RES") (JVal.jstr "RES")).2⟩

/-- C6: a status classified as terminal failure makes the loop fail at
once with `JobFailedError` carrying that status payload — for every
elapsed time (deadline never consulted), every interval (no sleep), and
every remaining fuel (no further iteration). -/
theorem C6_failed_status_fails_immediately :
    ∀ (fetch : Nat → String → JVal) (rid : String)
      (timeout interval fuel n t : Nat),
      classifyPayload (fetch n (status_url rid)) = some .failure →
      poll_until_complete fetch rid timeout interval (fuel + 1) n t =
        .jobFailed (fetch n (status_url rid)) :=
  fun fetch rid timeout interval fuel n t h =>
    poll_step_failure fetch rid timeout interval fuel n t h

/-- Witness for C6: a `FAILED` status at elapsed 100 s (far past the
5 s deadline) still reports `JobFailedError`, not a timeout. -/
theorem C6_failed_status_fails_immediately_witness :
    poll_until_complete (fun _ _ => JVal.jobj [("status", JVal.jstr "FAILED")])
        "job" 5 1 1 0 100
      = .jobFailed (JVal.jobj [("status", JVal.jstr "FAILED")]) :=
  C6_failed_status_fails_immediately
    (fun _ _ => JVal.jobj [("status", JVal.jstr "FAILED")]) "job" 5 1 0 0 100 rfl

/-- C10: a status payload with both `status` and `state` absent or null
normalizes to the empty string, which is non-terminal, so the loop keeps
polling such a job until the deadline fires (here `timeout=5`,
`interval=1`, timing out at 6 s). -/
theorem C10_missing_status_keys_poll_until_timeout :
    ∀ (j : JVal) (rid : String),
      getD j "status" = .jnull → getD j "state" = .jnull →
      status_val j = some "" ∧ classifyPayload j = some .nonTerminal ∧
        poll_until_complete (fun _ _ => j) rid 5 1 7 0 0 = .timedOut 6 := by
  intro j rid h1 h2
  have hsv : status_val j = some "" := by
    simp only [status_val, pyOr, h1, h2, truthy]
    rfl
  have hcp : classifyPayload j = some .nonTerminal := by
    simp [classifyPayload, hsv]
    rfl
  exact ⟨hsv, hcp, poll_times_out_5_1 (fun _ _ => j) rid (fun _ => hcp)⟩

/-- Witness for C10: the empty status payload `{}` polls to timeout. -/
theorem C10_missing_status_keys_poll_until_timeout_witness :
    status_val (JVal.jobj []) = some ""
    ∧ classifyPayload (JVal.jobj []) = some .nonTerminal
    ∧ poll_until_complete (fun _ _ => JVal.jobj []) "job" 5 1 7 0 0 = .timedOut 6 :=
  C10_missing_status_keys_poll_until_timeout (JVal.jobj []) "job" rfl rfl

/-- C2 counterexample: `{"a": ["http://x"]}` contains the string
`"http://x"` as a direct element of a sequence, yet the recursive search
returns nothing and extraction (with no other strategy applicable) ends
with no image found — refuting the claim that any `http`-prefixed string
reachable in the tree is found. -/
theorem C2_list_element_url_not_found :
    all_http_strings (.jobj [("a", .jarr [.jstr "http://x"])]) = ["http://x"]
    ∧ find_first_url (.jobj [("a", .jarr [.jstr "http://x"])]) = none
    ∧ extract_image_bytes_from_result (fun _ => ([], none))
        (.jobj [("a", .jarr [.jstr "http://x"])]) = .notFound := by
  refine ⟨?_, ?_, ?_⟩
  · simp [all_http_strings, startsWithHttp]
  · simp [find_first_url, asHttpString, startsWithHttp]
  · simp [extract_image_bytes_from_result, output_chain, getD, lookupD, truthy, pyOr]
    simp [find_first_url, asHttpString, startsWithHttp]

/-- C2 amended: when strategies 1 and 2 do not match, the extractor
performs the depth-first traversal and returns (and fetches) the first
string starting with `http` that occurs as a direct value of a mapping
entry — `url_candidates` lists exactly those strings in traversal order;
strings that are elements of sequences (or the root) are not candidates. -/
theorem C2_first_mapping_value_url_fetched :
    ∀ (g : String → List Nat × Option String) (r : JVal),
      truthy (getD r "url") = false → strategy2_hit r = false →
      find_first_url r = (url_candidates r).head?
      ∧ extract_image_bytes_from_result g r =
          (match (url_candidates r).head? with
           | some u => fetch_as_image g u
           | none => .notFound) := by
  intro g r h1 h2
  refine ⟨find_first_url_eq_head r, ?_⟩
  rw [extract_step3_of_miss g r h1 h2, find_first_url_eq_head r]

/-- Witness for C2 (amended): a nested mapping value URL is found and
fetched. -/
theorem C2_first_mapping_value_url_fetched_witness :
    find_first_url (.jobj [("meta", .jobj [("image_url", .jstr "http://img/a.png")])])
      = (url_candidates (.jobj [("meta", .jobj [("image_url", .jstr "http://img/a.png")])])).head?
    ∧ extract_image_bytes_from_result (fun _ => ([7], some "image/png"))
        (.jobj [("meta", .jobj [("image_url", .jstr "http://img/a.png")])])
      = (match (url_candidates (.jobj [("meta", .jobj [("image_url", .jstr "http://img/a.png")])])).head? with
         | some u => fetch_as_image (fun _ => ([7], some "image/png")) u
         | none => .notFound) :=
  C2_first_mapping_value_url_fetched (fun _ => ([7], some "image/png"))
    (.jobj [("meta", .jobj [("image_url", .jstr "http://img/a.png")])]) rfl rfl

/-- C3 counterexample: in `{"request_id": "", "id": "x"}` the key
`request_id` is present (bound to the empty string), yet the extracted
handle id is the value of `id`, refuting "whenever the key `request_id`
is present, its value is the handle id". -/
theorem C3_present_request_id_skipped_when_falsy :
    lookupD [("request_id", JVal.jstr ""), ("id", JVal.jstr "x")] "request_id"
      = JVal.jstr ""
    ∧ extract_request_id (.jobj [("request_id", .jstr ""), ("id", .jstr "x")])
        = some (.jstr "x")
    ∧ JVal.jstr "x" ≠ JVal.jstr "" := by
  refine ⟨rfl, rfl, by simp⟩

/-- C3 amended: the handle id is the first key among `request_id`, `id`,
`requestId` (in that order) whose value is truthy; when no key holds a
truthy value — in particular when none of the three is present — the
submission fails with `MalformedResponseError` carrying the raw
response. -/
theorem C3_first_truthy_id_key_wins :
    ∀ resp : JVal,
      (truthy (getD resp "request_id") = true →
        submit_request_id resp = .ok (getD resp "request_id"))
      ∧ (truthy (getD resp "request_id") = false →
          truthy (getD resp "id") = true →
          submit_request_id resp = .ok (getD resp "id"))
      ∧ (truthy (getD resp "request_id") = false →
          truthy (getD resp "id") = false →
          truthy (getD resp "requestId") = true →
          submit_request_id resp = .ok (getD resp "requestId"))
      ∧ (truthy (getD resp "request_id") = false →
          truthy (getD resp "id") = false →
          truthy (getD resp "requestId") = false →
          submit_request_id resp = .error (.malformedResponse resp)) := by
  intro resp
  refine ⟨fun h1 => ?_, fun h1 h2 => ?_, fun h1 h2 h3 => ?_, fun h1 h2 h3 => ?_⟩ <;>
    simp [submit_request_id, extract_request_id, pyOr, *]

/-- Witness for C3 (amended): the spec's own examples —
`{"request_id": "abc"}` yields `abc`; `{"id": "x", "requestId": "y"}`
yields `x`; `{}` is malformed. -/
theorem C3_first_truthy_id_key_wins_witness :
    submit_request_id (.jobj [("request_id", .jstr "abc")])
      = .ok (getD (.jobj [("request_id", .jstr "abc")]) "request_id")
    ∧ submit_request_id (.jobj [("id", .jstr "x"), ("requestId", .jstr "y")])
        = .ok (getD (.jobj [("id", .jstr "x"), ("requestId", .jstr "y")]) "id")
    ∧ submit_request_id (.jobj [])
        = .error (.malformedResponse (.jobj [])) :=
  ⟨(C3_first_truthy_id_key_wins (.jobj [("request_id", .jstr "abc")])).1 rfl,
   (C3_first_truthy_id_key_wins
      (.jobj [("id", .jstr "x"), ("requestId", .jstr "y")])).2.1 rfl rfl,
   (C3_first_truthy_id_key_wins (.jobj [])).2.2.2 rfl rfl rfl⟩

/-- C7: `{"output": [{"base64": "aGVsbG8="}]}` extracts to the bytes of
`hello` with content type `image/png`; in general, when the first output
element is a mapping whose `url` is not truthy and whose `base64` or
`b64` value is truthy, the value selected by `base64 or b64` (so `base64`
first) is decoded as standard base64 with the content type fixed to
`image/png`. -/
theorem C7_base64_decoded_before_b64 :
    (∀ g, extract_image_bytes_from_result g
        (.jobj [("output", .jarr [.jobj [("base64", .jstr "aGVsbG8=")]])])
        = .found [104, 101, 108, 108, 111] "image/png")
    ∧ (∀ (g : String → List Nat × Option String) (fs ifs : List (String × JVal))
        (rest : List JVal),
        output_chain (.jobj fs) = .jarr (.jobj ifs :: rest) →
        truthy (getD (.jobj fs) "url") = false →
        truthy (getD (.jobj ifs) "url") = false →
        (truthy (getD (.jobj ifs) "base64") || truthy (getD (.jobj ifs) "b64")) = true →
        extract_image_bytes_from_result g (.jobj fs) =
          decode_b64_image (pyOr (getD (.jobj ifs) "base64") (getD (.jobj ifs) "b64"))) := by
  constructor
  · intro g
    rfl
  · intro g fs ifs rest ho h1 h2 h3
    unfold extract_image_bytes_from_result
    simp only [h1, Bool.false_eq_true, if_false, ho, h2, h3, if_true]

/-- Witness for C7: the concrete decode plus the general branch applied
to the same payload. -/
theorem C7_base64_decoded_before_b64_witness :
    extract_image_bytes_from_result (fun _ => ([], none))
        (.jobj [("output", .jarr [.jobj [("base64", .jstr "aGVsbG8=")]])])
      = .found [104, 101, 108, 108, 111] "image/png"
    ∧ extract_image_bytes_from_result (fun _ => ([], none))
        (.jobj [("output", .jarr [.jobj [("base64", .jstr "aGVsbG8=")]])])
      = decode_b64_image (pyOr
          (getD (.jobj [("base64", .jstr "aGVsbG8=")]) "base64")
          (getD (.jobj [("base64", .jstr "aGVsbG8=")]) "b64")) :=
  ⟨(C7_base64_decoded_before_b64.1 (fun _ => ([], none))),
   C7_base64_decoded_before_b64.2 (fun _ => ([], none))
     [("output", .jarr [.jobj [("base64", .jstr "aGVsbG8=")]])]
     [("base64", .jstr "aGVsbG8=")] [] rfl rfl rfl rfl⟩

/-- C8: a mapping result with no truthy top-level `url`, no usable
`output`/`outputs`/`results` first element, and no `http`-prefixed string
anywhere in the tree extracts to no image, and the route turns that into
`NoImageFoundError` carrying the full result. -/
theorem C8_no_image_yields_no_image_found :
    ∀ (g : String → List Nat × Option String) (fs : List (String × JVal)),
      truthy (getD (.jobj fs) "url") = false →
      strategy2_hit (.jobj fs) = false →
      all_http_strings (.jobj fs) = [] →
      extract_image_bytes_from_result g (.jobj fs) = .notFound
      ∧ generate_handle_extract .notFound (.jobj fs)
          = some (.error (.noImageFound (.jobj fs))) := by
  intro g fs h1 h2 h3
  refine ⟨?_, rfl⟩
  rw [extract_step3_of_miss g _ h1 h2, find_first_url_eq_head,
      url_candidates_nil_of_no_http _ h3]
  rfl

/-- Witness for C8: `{"message": "no outputs"}` produces no image. -/
theorem C8_no_image_yields_no_image_found_witness :
    extract_image_bytes_from_result (fun _ => ([], none))
        (.jobj [("message", .jstr "no outputs")]) = .notFound
    ∧ generate_handle_extract .notFound (.jobj [("message", .jstr "no outputs")])
        = some (.error (.noImageFound (.jobj [("message", .jstr "no outputs")]))) :=
  C8_no_image_yields_no_image_found (fun _ => ([], none))
    [("message", .jstr "no outputs")] rfl rfl
    (by simp [all_http_strings, startsWithHttp])

/-- C9 counterexample: two distinct taxonomy members collapse into the
same `(HTTP status, error message)` outcome.  At the
`upload_image_to_spaces` boundary a `JobFailedError` and an
`HTTPError`-borne `TransportError` both produce
`(500, "Failed to generate or upload image")`; at the `generate_image`
boundary a `JobFailedError` and a non-`HTTPError` transport failure both
produce `(500, "Failed to generate image")`. -/
theorem C9_transport_collapses_with_job_failure :
    upload_error_response (.jobFailed .jnull)
        = upload_error_response (.httpTransportError "502 Server Error")
    ∧ generate_error_response (.jobFailed .jnull)
        = generate_error_response (.otherTransportError "Connection refused")
    ∧ (AppError.jobFailed .jnull).kind
        ≠ (AppError.httpTransportError "502 Server Error").kind
    ∧ (AppError.jobFailed .jnull).kind
        ≠ (AppError.otherTransportError "Connection refused").kind :=
  ⟨rfl, rfl, by decide, by decide⟩

/-- C9 amended: distinct taxonomy members produce distinct
`(HTTP status, error message)` outcomes except exactly the pairs forced
through the generic `Exception` handler: at the `generate_image` boundary
`JobFailedError` collapses with a `TransportError` that is not an
`HTTPError`, and at the `upload_image_to_spaces` boundary `JobFailedError`
collapses with a `TransportError` of either form; every other pair of
distinct members — and `HTTPError` transport failures at the
`generate_image` boundary in particular — remains distinguishable. -/
theorem C9_error_kinds_distinct_except_generic_handler :
    ∀ e1 e2 : AppError, e1.kind ≠ e2.kind →
      (generate_error_response e1 = generate_error_response e2 ↔
        ((∃ p, e1 = .jobFailed p) ∧ (∃ d, e2 = .otherTransportError d))
        ∨ ((∃ d, e1 = .otherTransportError d) ∧ (∃ p, e2 = .jobFailed p)))
      ∧ (upload_error_response e1 = upload_error_response e2 ↔
        ((∃ p, e1 = .jobFailed p)
            ∧ (∃ d, e2 = .httpTransportError d ∨ e2 = .otherTransportError d))
        ∨ ((∃ d, e1 = .httpTransportError d ∨ e1 = .otherTransportError d)
            ∧ (∃ p, e2 = .jobFailed p))) := by
  intro e1 e2 h
  cases e1 <;> cases e2 <;>
    simp_all [AppError.kind, generate_error_response, upload_error_response]

/-- Witness for C9 (amended): timeout and no-image responses differ at
both boundaries. -/
theorem C9_error_kinds_distinct_except_generic_handler_witness :
    generate_error_response (.pollTimeout 5)
      ≠ generate_error_response (.noImageFound .jnull)
    ∧ upload_error_response (.pollTimeout 5)
      ≠ upload_error_response (.noImageFound .jnull) := by
  have hc := C9_error_kinds_distinct_except_generic_handler
    (.pollTimeout 5) (.noImageFound .jnull) (by decide)
  constructor
  · intro h
    rcases hc.1.mp h with ⟨⟨p, hp⟩, -⟩ | ⟨⟨d, hd⟩, -⟩
    · exact AppError.noConfusion hp
    · exact AppError.noConfusion hd
  · intro h
    rcases hc.2.mp h with ⟨⟨p, hp⟩, -⟩ | ⟨⟨d, hd | hd⟩, -⟩
    · exact AppError.noConfusion hp
    · exact AppError.noConfusion hd
    · exact AppError.noConfusion hd
